import Mathlib

/-!
Shallow embedding of the conan-camp_common python-requires module
(src/conanfile.py) and verification of its specified properties.

Python strings are modelled as Lean String, Python attribute dictionaries as
association lists, filesystem existence and external-process invocations as
explicit function parameters (the code only observes their results), and
Python exceptions as an explicit error type threaded through Except.
-/

namespace CampCommon

/-- Model of the Python exceptions raised by the module.  The payload strings
are the exact message strings built in src/conanfile.py.  attributeError and
indexError model the builtin exceptions raised by attribute access on None
and out-of-range list indexing respectively. -/
inductive PyError where
  | valueError (msg : String)
  | runtimeError (msg : String)
  | attributeError
  | indexError
  deriving DecidableEq, Repr

/-- Model of conans.tools.os_info as consulted by the module: the three OS
predicates and detect_windows_subsystem() (None when not running under a
Windows subsystem; Python truthiness of the returned name is modelled by
Option). -/
structure OSInfo where
  is_linux : Bool
  is_windows : Bool
  is_macos : Bool
  windows_subsystem : Option String
  deriving DecidableEq, Repr

/-- A Python object instance as seen by LazyProperty: its dynamic attribute
dictionary, modelled as an association list (most recent setattr first). -/
structure PyInstance (α : Type) where
  attrs : List (String × α)
  deriving DecidableEq, Repr

/-- Python hasattr(instance, name) restricted to the dynamic attributes. -/
def hasattr {α : Type} (inst : PyInstance α) (name : String) : Bool :=
  (inst.attrs.find? (fun kv => kv.1 == name)).isSome

/-- Python getattr(instance, name), as an Option (none when the attribute is
absent). -/
def getattr_opt {α : Type} (inst : PyInstance α) (name : String) : Option α :=
  (inst.attrs.find? (fun kv => kv.1 == name)).map (fun kv => kv.2)

/-- Python setattr(instance, name, value): the new binding shadows any older
one (find? returns the most recent binding first). -/
def setattr {α : Type} (inst : PyInstance α) (name : String) (v : α) : PyInstance α :=
  ⟨(name, v) :: inst.attrs⟩

/-- LazyProperty.__init__ derives the cache attribute name from the wrapped
method name (src/conanfile.py line 30). -/
def lazy_cache_name (method_name : String) : String :=
  "_" ++ method_name

/-- LazyProperty.__get__ (src/conanfile.py lines 37-52) for the instance
access path (instance is not None; the class-access path returns the
descriptor itself and is not modelled).  The wrapped computation may raise,
modelled by Except.  Returns the produced value (or the propagated error),
the instance state after the call (setattr happens only on success), and a
flag recording whether the underlying computation (fget or method) was
invoked.  In this module every use is the bare decorator form, so fget is
None at every call site. -/
def lazy_property_get {α : Type} (fget : Option (PyInstance α → Except PyError α))
    (cache_name : String) (method : PyInstance α → Except PyError α)
    (inst : PyInstance α) : Except PyError α × PyInstance α × Bool :=
  match getattr_opt inst cache_name with
  | some result => (Except.ok result, inst, false)
  | none =>
    match (match fget with
           | some g => g inst
           | none => method inst) with
    | Except.error e => (Except.error e, inst, true)
    | Except.ok result => (Except.ok result, setattr inst cache_name result, true)

/-- Python str.strip() whitespace set: space, tab, newline, carriage return,
vertical tab, form feed. -/
def isPySpace (c : Char) : Bool :=
  c = ' ' || c = '\t' || c = '\n' || c = '\r' || c = '\x0b' || c = '\x0c'

/-- Python str.strip(): drop leading and trailing whitespace. -/
def pyStrip (s : String) : String :=
  String.mk (((s.data.dropWhile isPySpace).reverse.dropWhile isPySpace).reverse)

/-- Helper for pySplitlines: accumulates the current line (reversed). -/
def pySplitlinesAux : List Char → List Char → List String
  | [], acc => if acc.isEmpty then [] else [String.mk acc.reverse]
  | '\n' :: rest, acc => String.mk acc.reverse :: pySplitlinesAux rest []
  | c :: rest, acc => pySplitlinesAux rest (c :: acc)

/-- Python str.splitlines() for newline-separated text: no trailing empty
line is produced for text ending in a newline, and the empty string yields
the empty list. -/
def pySplitlines (s : String) : List String :=
  pySplitlinesAux s.data []

/-- Python os.path.join(a, b) with POSIX semantics (the module joins plain
relative components such as "bin", "lib", "include", "pyconfig.h" onto
absolute roots). -/
def os_path_join (a b : String) : String :=
  if b.data.head? = some '/' then b
  else if a.data = [] then b
  else if a.data.getLast? = some '/' then String.mk (a.data ++ b.data)
  else String.mk (a.data ++ '/' :: b.data)

/-- Python str.upper() for the ASCII option names used by the recipes. -/
def py_str_upper (s : String) : String :=
  String.mk (s.data.map Char.toUpper)

/-- get_cuda_version (src/conanfile.py lines 316-317): the fixed
supported-version enumeration, including the sentinel string "None". -/
def get_cuda_version : List String :=
  ["9.2", "10.0", "10.1", "10.2", "11.0", "11.1", "11.2", "11.4", "11.5",
   "11.6", "11.7", "None"]

/-- The list iterated by __cuda_get_sdk_root_and_version (line 486):
reversed([v for v in get_cuda_version() if v != 'None']).  The source builds
a one-shot reversed iterator; it is consumed at most once on every control
path (either by the membership test or by exactly one probing loop), so a
reversed list is behaviourally identical. -/
def supportedCudaVersionsNewestFirst : List String :=
  (get_cuda_version.filter (fun v => v ≠ "None")).reverse

/-- Candidate root path template on Linux (line 498). -/
def linuxCudaRoot (cv : String) : String :=
  "/usr/local/cuda-" ++ cv

/-- Candidate root path template on Windows (lines 504-506). -/
def windowsCudaRoot (cv : String) : String :=
  "C:\\Program Files\\NVIDIA GPU Computing Toolkit\\CUDA\\v" ++ cv

/-- One probing loop of __cuda_get_sdk_root_and_version (lines 497-502 and
505-510): the state is (cuda_sdk_root, cuda_version_found).  Each iteration
overwrites cuda_sdk_root with the candidate path; on the first existing
candidate both components are set and the loop breaks; otherwise
cuda_version_found keeps its prior value. -/
def probe_loop (path_exists : String → Bool) (tmpl : String → String) :
    List String → Option String × Option String → Option String × Option String
  | [], st => st
  | cv :: rest, st =>
    let root := tmpl cv
    if path_exists root then (some root, some cv)
    else probe_loop path_exists tmpl rest (some root, st.2)

/-- Lines 496-515 of __cuda_get_sdk_root_and_version: run the Linux loop
when os_info.is_linux, then the Windows loop when os_info.is_windows, and
fail unless both a root and a found version resulted.  The requested version
(or "ANY") appears in the failure message (line 512). -/
def cuda_probe_roots (os : OSInfo) (path_exists : String → Bool)
    (find_cuda_versions : List String) (requested : Option String) :
    Except PyError (String × String) :=
  let st0 : Option String × Option String := (none, none)
  let st1 := if os.is_linux then
      probe_loop path_exists linuxCudaRoot find_cuda_versions st0
    else st0
  let st2 := if os.is_windows then
      probe_loop path_exists windowsCudaRoot find_cuda_versions st1
    else st1
  match st2 with
  | (some root, some found) => Except.ok (root, found)
  | _ => Except.error (PyError.valueError
      ("Could not find CUDA Sdk version: " ++ requested.getD "ANY"))

/-- CampCudaBase.__cuda_get_sdk_root_and_version (lines 482-515).  The
filesystem existence test os.path.exists is a parameter.  When a version is
requested it must be in the supported enumeration (the ValueError of line
490 is raised before either probing loop runs); otherwise all supported
versions are probed newest-first. -/
def cuda_get_sdk_root_and_version (os : OSInfo) (path_exists : String → Bool)
    (cuda_version : Option String) : Except PyError (String × String) :=
  match cuda_version with
  | some v =>
    if supportedCudaVersionsNewestFirst.contains v then
      cuda_probe_roots os path_exists [v] (some v)
    else
      Except.error (PyError.valueError ("Unsupported CUDA SDK Version requested: " ++ v))
  | none => cuda_probe_roots os path_exists supportedCudaVersionsNewestFirst none

/-- CampCudaBase.__cuda_check_sdk_version (lines 546-553).  The nvcc version
query __cuda_get_sdk_version is a parameter get_sdk_version: given the SDK
root it returns the version parsed from the nvcc banner (none when the
banner did not match), or an error when the probe itself raised.  A mismatch
is logged and reported as false, not raised (line 552). -/
def cuda_check_sdk_version (get_sdk_version : String → Except PyError (Option String))
    (cuda_sdk_root : Option String) (cuda_version : String) : Except PyError Bool :=
  match cuda_sdk_root with
  | none => Except.error (PyError.valueError "Invalid CUDA SDK root: None")
  | some root =>
    match get_sdk_version root with
    | Except.error e => Except.error e
    | Except.ok found => Except.ok (found = some cuda_version)

/-- Lines 452-456 of CampCudaBase._cuda_sdk_root: once a root is fixed, a
known requested/discovered version must be confirmed by
__cuda_check_sdk_version, else RuntimeError. -/
def cuda_sdk_check_tail (get_sdk_version : String → Except PyError (Option String))
    (cuda_root : String) (cuda_version : Option String) : Except PyError String :=
  match cuda_version with
  | none => Except.ok cuda_root
  | some v =>
    match cuda_check_sdk_version get_sdk_version (some cuda_root) v with
    | Except.error e => Except.error e
    | Except.ok true => Except.ok cuda_root
    | Except.ok false => Except.error (PyError.runtimeError
        "No suitable CUDA SDK Root directory found - cuda_check_sdk_version failed.")

/-- CampCudaBase._cuda_sdk_root (lines 433-456).  The two option strings are
the str() of options.get_safe with default "ANY" (lines 435-440): "ANY"
normalises to absent.  With no explicit root, discovery runs; a requested
version disagreeing with the discovered one raises ValueError (line 445;
unreachable, since discovery with a requested version can only find that
version).  The line-449 fallback to CUDA_ROOT_DEFAULT is likewise
unreachable: __cuda_get_sdk_root_and_version never returns None on success.
Finally a known version is checked against the root. -/
def cuda_sdk_root (os : OSInfo) (path_exists : String → Bool)
    (get_sdk_version : String → Except PyError (Option String))
    (cuda_version_opt cuda_root_opt : String) : Except PyError String :=
  let cuda_version := if cuda_version_opt = "ANY" then none else some cuda_version_opt
  let cuda_root := if cuda_root_opt = "ANY" then none else some cuda_root_opt
  match cuda_root with
  | some root => cuda_sdk_check_tail get_sdk_version root cuda_version
  | none =>
    match cuda_get_sdk_root_and_version os path_exists cuda_version with
    | Except.error e => Except.error e
    | Except.ok (root, cv) =>
      match cuda_version with
      | some v =>
        if cv ≠ v then
          Except.error (PyError.valueError
            ("CUDA SDK Version requested != found (" ++ v ++ " vs " ++ cv ++ ")"))
        else cuda_sdk_check_tail get_sdk_version root (some v)
      | none => cuda_sdk_check_tail get_sdk_version root (some cv)

/-- Body of CampCudaBase._cuda_bin_dir (lines 466-468), as a function of the
resolved SDK root (the LazyProperty wrapper is modelled separately). -/
def cuda_bin_dir (cuda_sdk_root : String) : String :=
  os_path_join cuda_sdk_root "bin"

/-- Body of CampCudaBase._cuda_lib_dir (lines 471-473), as a function of the
resolved SDK root.  The source consults no OS information here. -/
def cuda_lib_dir (cuda_sdk_root : String) : String :=
  os_path_join cuda_sdk_root "lib"

/-- Body of CampCudaBase._cuda_include_dir (lines 476-478), as a function of
the resolved SDK root. -/
def cuda_include_dir (cuda_sdk_root : String) : String :=
  os_path_join cuda_sdk_root "include"

/-- The nine-character literal ", release" of the version regular expression
at line 537. -/
def releaseLit : List Char :=
  [',', ' ', 'r', 'e', 'l', 'e', 'a', 's', 'e']

/-- Index of the last comma in a character run (used for the greedy group of
the version regular expression). -/
def lastCommaIdx (run : List Char) : Option Nat :=
  ((List.range run.length).filter (fun j => run.get? j == some ',')).getLast?

/-- Given the text following the ", release" literal, match the regex tail:
one whitespace character, then a greedy nonempty non-whitespace group that
must be immediately followed by a comma.  Greediness means the group extends
to the last comma inside the maximal non-whitespace run (the comma itself is
a non-whitespace character, so it lies within the run). -/
def releaseGroupAfter (cs : List Char) : Option String :=
  match cs with
  | [] => none
  | c :: rest =>
    if isPySpace c then
      let run := rest.takeWhile (fun x => !(isPySpace x))
      match lastCommaIdx run with
      | some j => if 1 ≤ j then some (String.mk (run.take j)) else none
      | none => none
    else none

/-- Scan for occurrences of the ", release" literal left to right, keeping
the group of the last occurrence at which the regex tail succeeds: the
greedy leading .* of the pattern makes the Python engine commit to the
rightmost position admitting a full match. -/
def releaseScan : List Char → Option String → Option String
  | [], acc => acc
  | c :: rest, acc =>
    let acc2 := if releaseLit.isPrefixOf (c :: rest) then
        match releaseGroupAfter ((c :: rest).drop 9) with
        | some g => some g
        | none => acc
      else acc
    releaseScan rest acc2

/-- Model of re.match on the pattern of line 537 (a greedy leading .*, the
literal ", release", one whitespace, a greedy nonempty non-whitespace group,
a comma, then anything to the end of line): the captured group, or none when
the line does not match. -/
def matchRelease (line : String) : Option String :=
  releaseScan line.data none

/-- Lines 529-530 of __cuda_run_nvcc_command: the captured stdout is
stripped and an empty result becomes Python None. -/
def cuda_run_nvcc_result (captured : String) : Option String :=
  let result := pyStrip captured
  if result = "" then none else some result

/-- CampCudaBase.__cuda_get_sdk_version (lines 534-543), as a function of
the raw stdout captured from running nvcc --version (the process invocation
itself is outside this function).  The run helper turns empty output into
None, on which .splitlines() raises AttributeError; indexing line [3] of a
shorter output raises IndexError; otherwise the regex either yields the
version or the function returns None. -/
def cuda_get_sdk_version (captured : String) : Except PyError (Option String) :=
  match cuda_run_nvcc_result captured with
  | none => Except.error PyError.attributeError
  | some result =>
    match (pySplitlines result).get? 3 with
    | none => Except.error PyError.indexError
    | some line =>
      match matchRelease line with
      | some version => Except.ok (some version)
      | none => Except.ok none

/-- CampPythonBase._python_include_dir (lines 627-632), as a function of the
two candidate directories (the results of the sysconfig "include" path query
and of the INCLUDEPY config-var query, in that order) and of the filesystem
existence test.  The first candidate whose joined pyconfig.h exists is
returned; when neither verifies, the method returns None (it raises
nothing). -/
def python_include_dir (path_exists : String → Bool)
    (sysconfig_include includepy : String) : Option String :=
  [sysconfig_include, includepy].find?
    (fun py_include => path_exists (os_path_join py_include "pyconfig.h"))

/-- The inner add_cmake_option of CampCMakeBase._configure_cmake (lines
715-719): option and value are already their str() forms. -/
def add_cmake_option (option value : String) : String × String :=
  let var_name := py_str_upper option
  let value_str := value
  let var_value := if value_str = "True" then "ON"
    else if value_str = "False" then "OFF"
    else value_str
  (var_name, var_value)

/-- Lines 721-722 of _configure_cmake: every declared option is projected
into a cmake definition. -/
def configure_cmake_definitions (options : List (String × String)) :
    List (String × String) :=
  options.map (fun ov => add_cmake_option ov.1 ov.2)

/-- The introspection one-liner of _python_exec discovery (line 653). -/
def python_exec_introspection : String :=
  "import sys; print(sys.executable)"

/-- CampPythonBase.__python_get_interpreter_fullpath (lines 643-656).  The
external invocation __python_run_command (run the command with a one-liner,
capture and strip stdout) is the parameter run_python; any error it raises
is caught and re-raised as RuntimeError (lines 654-656).  With no command
and use_system_python false, ValueError is raised before any invocation;
otherwise a missing command defaults to "python" on plain Windows (no
Windows subsystem detected) and "python3" elsewhere. -/
def python_get_interpreter_fullpath (os : OSInfo)
    (run_python : String → String → Except PyError String)
    (command : Option String) (use_system_python : Bool) : Except PyError String :=
  if command = none ∧ use_system_python = false then
    Except.error (PyError.valueError
      "Python interpreter not found - if use_system_python=False, you must specify a command")
  else
    let cmd := match command with
      | none =>
        if os.is_windows = true ∧ os.windows_subsystem = none then "python" else "python3"
      | some c => c
    match run_python cmd python_exec_introspection with
    | Except.ok out => Except.ok out
    | Except.error _ => Except.error (PyError.runtimeError "Error while executing python command.")

theorem find?_eq_none_of_hasattr_false {α : Type} (inst : PyInstance α) (name : String)
    (h : hasattr inst name = false) :
    inst.attrs.find? (fun kv => kv.1 == name) = none := by
  unfold hasattr at h
  cases hf : inst.attrs.find? (fun kv => kv.1 == name) with
  | none => rfl
  | some kv => rw [hf] at h; simp at h

/-- Claim C1: memoized accessor exactly-once semantics.  On an owner whose
cache attribute is absent, a first read of a LazyProperty invokes the
wrapped computation (flag true), stores the result, and returns it; a second
read on the resulting owner state returns the same value without invoking
the computation (flag false), leaving the state unchanged; and a freshly
constructed owner (empty attribute dictionary) has no cached value, so it
can never observe a value cached on a different owner instance. -/
theorem lazy_property_exactly_once {α : Type} (cache_name : String)
    (method : PyInstance α → Except PyError α) (inst : PyInstance α) (v : α)
    (hfresh : hasattr inst cache_name = false) (hm : method inst = Except.ok v) :
    lazy_property_get none cache_name method inst =
      (Except.ok v, setattr inst cache_name v, true) ∧
    lazy_property_get none cache_name method (setattr inst cache_name v) =
      (Except.ok v, setattr inst cache_name v, false) ∧
    hasattr (PyInstance.mk ([] : List (String × α))) cache_name = false := by
  have hnone := find?_eq_none_of_hasattr_false inst cache_name hfresh
  refine ⟨?_, ?_, ?_⟩
  · simp [lazy_property_get, getattr_opt, hnone, hm]
  · simp [lazy_property_get, getattr_opt, setattr, List.find?]
  · simp [hasattr, List.find?]

theorem lazy_property_exactly_once_witness :
    lazy_property_get none "_f" (fun _ => Except.ok 7) (PyInstance.mk ([] : List (String × Nat))) =
      (Except.ok 7, setattr (PyInstance.mk []) "_f" 7, true) ∧
    lazy_property_get none "_f" (fun _ => Except.ok 7) (setattr (PyInstance.mk []) "_f" 7) =
      (Except.ok 7, setattr (PyInstance.mk []) "_f" 7, false) ∧
    hasattr (PyInstance.mk ([] : List (String × Nat))) "_f" = false :=
  lazy_property_exactly_once "_f" (fun _ => Except.ok 7) (PyInstance.mk []) 7 rfl rfl

/-- Claim C2: memoized accessor failure atomicity.  On an owner whose cache
attribute is absent, a read whose wrapped computation raises propagates that
error, stores nothing (the owner state is returned unchanged), and the next
read on that unchanged state invokes the computation again. -/
theorem lazy_property_failure_atomicity {α : Type} (cache_name : String)
    (method : PyInstance α → Except PyError α) (inst : PyInstance α) (e : PyError)
    (hfresh : hasattr inst cache_name = false) (hm : method inst = Except.error e) :
    lazy_property_get none cache_name method inst = (Except.error e, inst, true) ∧
    lazy_property_get none cache_name method
        ((lazy_property_get none cache_name method inst).2.1) =
      (Except.error e, inst, true) := by
  have hnone := find?_eq_none_of_hasattr_false inst cache_name hfresh
  have h1 : lazy_property_get none cache_name method inst = (Except.error e, inst, true) := by
    simp [lazy_property_get, getattr_opt, hnone, hm]
  exact ⟨h1, by rw [h1]; exact h1⟩

theorem lazy_property_failure_atomicity_witness :
    lazy_property_get none "_g" (fun _ => Except.error PyError.indexError)
        (PyInstance.mk ([] : List (String × Nat))) =
      (Except.error PyError.indexError, PyInstance.mk [], true) ∧
    lazy_property_get none "_g" (fun _ => Except.error PyError.indexError)
        ((lazy_property_get none "_g" (fun _ => Except.error PyError.indexError)
          (PyInstance.mk ([] : List (String × Nat)))).2.1) =
      (Except.error PyError.indexError, PyInstance.mk [], true) :=
  lazy_property_failure_atomicity "_g" (fun _ => Except.error PyError.indexError)
    (PyInstance.mk []) PyError.indexError rfl rfl

/-- Claim C8: boolean option projection.  Every declared recipe option is
projected by _configure_cmake into a cmake definition whose name is the
uppercased option name and whose value is "ON" for the string form "True",
"OFF" for "False", and the plain string form otherwise. -/
theorem configure_cmake_boolean_projection (options : List (String × String))
    (o v : String) (h : (o, v) ∈ options) :
    (py_str_upper o, if v = "True" then "ON" else if v = "False" then "OFF" else v)
      ∈ configure_cmake_definitions options := by
  refine List.mem_map.mpr ⟨(o, v), h, ?_⟩
  simp [add_cmake_option]

theorem configure_cmake_boolean_projection_witness :
    ("SHARED", "ON") ∈ configure_cmake_definitions
      [("shared", "True"), ("with_cuda", "False"), ("cuda_version", "11.2")] :=
  configure_cmake_boolean_projection
    [("shared", "True"), ("with_cuda", "False"), ("cuda_version", "11.2")]
    "shared" "True" (by simp)

theorem probe_loop_found (path_exists : String → Bool) (tmpl : String → String)
    (l : List String) (cv : String)
    (h : l.find? (fun x => path_exists (tmpl x)) = some cv) :
    ∀ st, probe_loop path_exists tmpl l st = (some (tmpl cv), some cv) := by
  induction l with
  | nil => simp [List.find?] at h
  | cons a rest ih =>
    intro st
    cases hp : path_exists (tmpl a) with
    | true =>
      simp only [List.find?, hp, Option.some.injEq] at h
      subst h
      simp [probe_loop, hp]
    | false =>
      simp only [List.find?, hp] at h
      simp only [probe_loop, hp, Bool.false_eq_true, if_false]
      exact ih h _

theorem probe_loop_not_found (path_exists : String → Bool) (tmpl : String → String)
    (l : List String)
    (h : l.find? (fun x => path_exists (tmpl x)) = none) :
    ∀ st, (probe_loop path_exists tmpl l st).2 = st.2 := by
  induction l with
  | nil => intro st; rfl
  | cons a rest ih =>
    intro st
    cases hp : path_exists (tmpl a) with
    | true => simp only [List.find?, hp] at h; cases h
    | false =>
      simp only [List.find?, hp] at h
      simp only [probe_loop, hp, Bool.false_eq_true, if_false]
      exact ih h _

/-- Claim C3: unsupported-version early rejection.  For every requested
version outside the supported enumeration, __cuda_get_sdk_root_and_version
raises ValueError; the result is the same for every filesystem existence
test path_exists, so no existence probe of a candidate root influences (or
is needed for) the outcome. -/
theorem cuda_unsupported_version_rejected_before_probe (os : OSInfo) (v : String)
    (hv : supportedCudaVersionsNewestFirst.contains v = false) :
    ∀ path_exists : String → Bool,
      cuda_get_sdk_root_and_version os path_exists (some v) =
        Except.error (PyError.valueError ("Unsupported CUDA SDK Version requested: " ++ v)) := by
  intro path_exists
  show (if supportedCudaVersionsNewestFirst.contains v = true then
          cuda_probe_roots os path_exists [v] (some v)
        else Except.error
          (PyError.valueError ("Unsupported CUDA SDK Version requested: " ++ v))) = _
  rw [hv]
  simp

theorem cuda_unsupported_version_rejected_before_probe_witness :
    cuda_get_sdk_root_and_version (OSInfo.mk true false false none) (fun _ => true)
        (some "9.9") =
      Except.error (PyError.valueError ("Unsupported CUDA SDK Version requested: " ++ "9.9")) :=
  cuda_unsupported_version_rejected_before_probe (OSInfo.mk true false false none) "9.9"
    (by decide) (fun _ => true)

/-- The candidate root generated for a supported version on the active OS
(Linux and Windows use different path templates). -/
def cudaRootCandidate (os : OSInfo) (cv : String) : String :=
  if os.is_linux then linuxCudaRoot cv else windowsCudaRoot cv

/-- Claim C4: newest-first discovery.  With no requested version, on an OS
that is exactly one of Linux or Windows, __cuda_get_sdk_root_and_version
returns the candidate root and version of the first supported version, in
newest-first order, whose root exists, and raises the could-not-find
ValueError when no candidate root exists. -/
theorem cuda_discovery_newest_first (os : OSInfo) (path_exists : String → Bool)
    (hx : os.is_linux ≠ os.is_windows) :
    cuda_get_sdk_root_and_version os path_exists none =
      match supportedCudaVersionsNewestFirst.find?
          (fun cv => path_exists (cudaRootCandidate os cv)) with
      | some cv => Except.ok (cudaRootCandidate os cv, cv)
      | none => Except.error (PyError.valueError "Could not find CUDA Sdk version: ANY") := by
  obtain ⟨lin, win, mac, ws⟩ := os
  cases lin with
  | true =>
    cases win with
    | true => simp at hx
    | false =>
      cases hf : supportedCudaVersionsNewestFirst.find?
          (fun cv => path_exists (cudaRootCandidate ⟨true, false, mac, ws⟩ cv)) with
      | some cv =>
        have hpl := probe_loop_found path_exists linuxCudaRoot
          supportedCudaVersionsNewestFirst cv hf ((none, none))
        simp [cuda_get_sdk_root_and_version, cuda_probe_roots, hpl, cudaRootCandidate]
      | none =>
        have hl := probe_loop_not_found path_exists linuxCudaRoot
          supportedCudaVersionsNewestFirst hf ((none, none))
        rcases hst : probe_loop path_exists linuxCudaRoot
            supportedCudaVersionsNewestFirst (none, none) with ⟨r1, f1⟩
        rw [hst] at hl
        simp at hl
        subst hl
        cases r1 <;>
          simp [cuda_get_sdk_root_and_version, cuda_probe_roots, hst]
  | false =>
    cases win with
    | false => simp at hx
    | true =>
      cases hf : supportedCudaVersionsNewestFirst.find?
          (fun cv => path_exists (cudaRootCandidate ⟨false, true, mac, ws⟩ cv)) with
      | some cv =>
        have hpl := probe_loop_found path_exists windowsCudaRoot
          supportedCudaVersionsNewestFirst cv hf ((none, none))
        simp [cuda_get_sdk_root_and_version, cuda_probe_roots, hpl, cudaRootCandidate]
      | none =>
        have hl := probe_loop_not_found path_exists windowsCudaRoot
          supportedCudaVersionsNewestFirst hf ((none, none))
        rcases hst : probe_loop path_exists windowsCudaRoot
            supportedCudaVersionsNewestFirst (none, none) with ⟨r1, f1⟩
        rw [hst] at hl
        simp at hl
        subst hl
        cases r1 <;>
          simp [cuda_get_sdk_root_and_version, cuda_probe_roots, hst]

theorem cuda_discovery_newest_first_witness :
    cuda_get_sdk_root_and_version (OSInfo.mk true false false none)
        (fun s => s == "/usr/local/cuda-11.5" || s == "/usr/local/cuda-11.7") none =
      Except.ok ("/usr/local/cuda-11.7", "11.7") :=
  (cuda_discovery_newest_first (OSInfo.mk true false false none)
    (fun s => s == "/usr/local/cuda-11.5" || s == "/usr/local/cuda-11.7")
    (by decide)).trans (by rfl)

/-- Claim C5: explicit root/version cross-validation.  With an explicitly
supplied root and version (neither option left at "ANY"), when the nvcc
version query on that root reports w, resolution of _cuda_sdk_root succeeds
with the root exactly when w is the requested version, and raises the
RuntimeError validation failure otherwise. -/
theorem cuda_explicit_root_version_cross_validated (os : OSInfo)
    (path_exists : String → Bool)
    (get_sdk_version : String → Except PyError (Option String))
    (root ver : String) (w : Option String)
    (hroot : root ≠ "ANY") (hver : ver ≠ "ANY")
    (hq : get_sdk_version root = Except.ok w) :
    cuda_sdk_root os path_exists get_sdk_version ver root =
      if w = some ver then Except.ok root
      else Except.error (PyError.runtimeError
        "No suitable CUDA SDK Root directory found - cuda_check_sdk_version failed.") := by
  simp only [cuda_sdk_root, if_neg hver, if_neg hroot, cuda_sdk_check_tail,
    cuda_check_sdk_version, hq]
  by_cases hw : w = some ver
  · simp [hw]
  · simp [hw]

theorem cuda_explicit_root_version_cross_validated_witness :
    cuda_sdk_root (OSInfo.mk true false false none) (fun _ => false)
        (fun _ => Except.ok (some "11.2")) "11.4" "/usr/local/cuda-11.4" =
      Except.error (PyError.runtimeError
        "No suitable CUDA SDK Root directory found - cuda_check_sdk_version failed.") :=
  (cuda_explicit_root_version_cross_validated (OSInfo.mk true false false none)
    (fun _ => false) (fun _ => Except.ok (some "11.2")) "/usr/local/cuda-11.4" "11.4"
    (some "11.2") (by decide) (by decide) rfl).trans (by rfl)

/-- Claim C6 counterexample: with neither candidate directory containing the
marker file pyconfig.h, _python_include_dir returns Python None — a normal
return value.  The method body contains no raise at all, so the claimed
header-not-found failure is never raised. -/
theorem python_include_dir_none_counterexample :
    python_include_dir (fun _ => false) "/usr/include/python3.8"
      "/usr/local/include/python3.8" = none := rfl

/-- Claim C6 (amended): Python include-directory resolution tries the
sysconfig "include" path and then the INCLUDEPY config variable, returns the
first candidate whose joined pyconfig.h exists (the secondary when only it
verifies), and returns None — without raising — when neither candidate
contains the marker file. -/
theorem python_include_dir_fallback (path_exists : String → Bool)
    (sysconfig_include includepy : String) :
    python_include_dir path_exists sysconfig_include includepy =
      if path_exists (os_path_join sysconfig_include "pyconfig.h") then some sysconfig_include
      else if path_exists (os_path_join includepy "pyconfig.h") then some includepy
      else none := by
  by_cases h1 : path_exists (os_path_join sysconfig_include "pyconfig.h") <;>
    by_cases h2 : path_exists (os_path_join includepy "pyconfig.h") <;>
    simp [python_include_dir, List.find?, h1, h2]

/-- Claim C7 counterexample: the derived CUDA library directory is always
root/lib; on a Linux SDK root it is not root/lib64 nor root/lib/x64, so no
OS-specific library subdirectory convention is applied (the source of
_cuda_lib_dir consults no OS information at all). -/
theorem cuda_lib_dir_no_os_convention_counterexample :
    cuda_lib_dir "/usr/local/cuda-11.1" = "/usr/local/cuda-11.1/lib" ∧
    cuda_lib_dir "/usr/local/cuda-11.1" ≠ "/usr/local/cuda-11.1/lib64" ∧
    cuda_lib_dir "/usr/local/cuda-11.1" ≠ "/usr/local/cuda-11.1/lib/x64" := by
  refine ⟨rfl, ?_, ?_⟩ <;> decide

/-- Claim C7 (amended): for every resolved SDK root, the derived bin, lib
and include directories are computed deterministically from the root alone,
uniformly on every OS: root/bin, root/lib and root/include (no OS-specific
library subdirectory convention such as lib64 or lib/x64). -/
theorem cuda_derived_paths_deterministic (root : String)
    (h1 : ¬ root.data = []) (h2 : ¬ root.data.getLast? = some '/') :
    cuda_bin_dir root = root ++ "/bin" ∧
    cuda_lib_dir root = root ++ "/lib" ∧
    cuda_include_dir root = root ++ "/include" := by
  obtain ⟨l⟩ := root
  refine ⟨?_, ?_, ?_⟩ <;>
    · simp only [cuda_bin_dir, cuda_lib_dir, cuda_include_dir, os_path_join]
      rw [if_neg (by decide), if_neg h1, if_neg h2]
      rfl

theorem cuda_derived_paths_deterministic_witness :
    cuda_bin_dir "/usr/local/cuda-11.1" = "/usr/local/cuda-11.1" ++ "/bin" ∧
    cuda_lib_dir "/usr/local/cuda-11.1" = "/usr/local/cuda-11.1" ++ "/lib" ∧
    cuda_include_dir "/usr/local/cuda-11.1" = "/usr/local/cuda-11.1" ++ "/include" :=
  cuda_derived_paths_deterministic "/usr/local/cuda-11.1" (by decide) (by decide)

/-- Claim C9 counterexample: on a captured nvcc output with fewer than four
lines, __cuda_get_sdk_version raises IndexError (result.splitlines()[3] is
out of range) instead of returning None: the function is not total on
unexpected output. -/
theorem cuda_get_sdk_version_short_output_raises :
    cuda_get_sdk_version
        "nvcc: NVIDIA (R) Cuda compiler driver\nCopyright (c) 2005-2022 NVIDIA Corporation" =
      Except.error PyError.indexError := rfl

/-- Claim C9 (amended): for every captured nvcc output whose stripped text
is nonempty and has at least four lines, __cuda_get_sdk_version does not
raise: it returns the version token extracted from line index 3 by the
", release <version>," pattern, or None when that line does not match.  For
shorter outputs it raises IndexError, and for empty or whitespace-only
output it raises AttributeError (None.splitlines()). -/
theorem cuda_get_sdk_version_total_on_four_lines (captured r line : String)
    (h1 : cuda_run_nvcc_result captured = some r)
    (h2 : (pySplitlines r).get? 3 = some line) :
    cuda_get_sdk_version captured = Except.ok (matchRelease line) := by
  simp only [cuda_get_sdk_version, h1, h2]
  cases hml : matchRelease line <;> simp [hml]

theorem cuda_get_sdk_version_total_on_four_lines_witness :
    cuda_get_sdk_version
        "nvcc: NVIDIA (R) Cuda compiler driver\nCopyright (c) 2005-2022 NVIDIA Corporation\nBuilt on Wed_Jun__8_16:49:14_PDT_2022\nCuda compilation tools, release 11.7, V11.7.99" =
      Except.ok (some "11.7") :=
  (cuda_get_sdk_version_total_on_four_lines
    "nvcc: NVIDIA (R) Cuda compiler driver\nCopyright (c) 2005-2022 NVIDIA Corporation\nBuilt on Wed_Jun__8_16:49:14_PDT_2022\nCuda compilation tools, release 11.7, V11.7.99"
    "nvcc: NVIDIA (R) Cuda compiler driver\nCopyright (c) 2005-2022 NVIDIA Corporation\nBuilt on Wed_Jun__8_16:49:14_PDT_2022\nCuda compilation tools, release 11.7, V11.7.99"
    "Cuda compilation tools, release 11.7, V11.7.99" rfl rfl).trans (by rfl)

/-- Claim C10: implicit precondition of interpreter discovery.  With no
command and use_system_python false, __python_get_interpreter_fullpath
raises ValueError — uniformly in the process-running capability, so before
any external process is invoked.  A default command is substituted only
when system python is allowed: with no command and use_system_python true
the interpreter introspection runs "python" on plain Windows (no Windows
subsystem) and "python3" otherwise; with an explicit command that command
is run unchanged for either flag value. -/
theorem python_interpreter_default_gated_by_system_flag (os : OSInfo) :
    (∀ run_python : String → String → Except PyError String,
      python_get_interpreter_fullpath os run_python none false =
        Except.error (PyError.valueError
          "Python interpreter not found - if use_system_python=False, you must specify a command")) ∧
    (∀ run_python : String → String → Except PyError String,
      python_get_interpreter_fullpath os run_python none true =
        match run_python
            (if os.is_windows = true ∧ os.windows_subsystem = none then "python" else "python3")
            python_exec_introspection with
        | Except.ok out => Except.ok out
        | Except.error _ =>
          Except.error (PyError.runtimeError "Error while executing python command.")) ∧
    (∀ (run_python : String → String → Except PyError String) (c : String) (b : Bool),
      python_get_interpreter_fullpath os run_python (some c) b =
        match run_python c python_exec_introspection with
        | Except.ok out => Except.ok out
        | Except.error _ =>
          Except.error (PyError.runtimeError "Error while executing python command.")) := by
  refine ⟨fun rp => ?_, fun rp => ?_, fun rp c b => ?_⟩ <;>
    simp [python_get_interpreter_fullpath]

end CampCommon
